import Mathlib

/-!
Shallow embedding of the identity / address-book router of the Shop-BE
repository (src/Routers/user.py) together with proofs about the claims of
its specification.

External collaborators that are not part of the repository (the email
validator, bcrypt, the mailer, the token signer) enter the model as function
parameters of the operations; the challenge cache and the relational store
are modelled explicitly as values threaded through each operation.  All
failure paths of the source raise before the transaction commits, so an
operation that fails returns the store unchanged.
-/

namespace ShopBE

/-- The two roles of the permission model (Models.user.Permission is not under
src/; modelled from the spec: two roles USER < ADMIN). -/
inductive Permission where
  | user
  | admin
deriving DecidableEq, Repr

def permValue : Permission → Nat
  | .user => 0
  | .admin => 1

/-- Modelled from the spec: Services.Security.user.verify_user is not under
src/.  Per the spec's PermissionModel (roles totally ordered USER < ADMIN) and
its assertion-as-authorization design note (the raw assert in the router is
the sole gate), it returns whether the caller's permission reaches the
required one. -/
def verify_user (u_permission : Permission) (required : Permission) : Bool :=
  Nat.ble (permValue required) (permValue u_permission)

/-- A row of the UserDb table. -/
structure UserRec where
  uid : String
  email : String
  username : String
  password : String
  permission : Permission
  birthday : Option String
  gender : Nat
deriving DecidableEq, Repr

/-- A row of the AddressDb table. -/
structure AddressRec where
  aid : String
  uid : String
  is_default : Bool
  address : String
  phone : String
  name : String
deriving DecidableEq, Repr

/-- The relational record store. -/
structure Db where
  users : List UserRec
  addresses : List AddressRec
deriving DecidableEq, Repr

/-- The challenge store (Services.Cache.cache): request identifier to code.
TTL expiry is outside the model; only get / set / delete are used. -/
abbrev Cache := List (String × String)

def cacheGet (c : Cache) (k : String) : Option String :=
  (c.find? (fun p => p.1 == k)).map (fun p => p.2)

def cacheSet (c : Cache) (k v : String) : Cache :=
  (k, v) :: c.filter (fun p => !(p.1 == k))

def cacheDelete (c : Cache) (k : String) : Cache :=
  c.filter (fun p => !(p.1 == k))

/-- The error kinds surfaced by the router, plus the two unhandled-exception
outcomes a request can end in (a failed Python assert and a failed commit),
which reach the client as internal errors, not as taxonomy kinds. -/
inductive ErrKind where
  | invalidOperation
  | resourceConflict
  | captchaFailed
  | authFailed
  | authorizationFailed
  | notFound
  | assertionError
  | commitFailed
deriving DecidableEq, Repr

inductive Outcome (α : Type) where
  | ok : α → Outcome α
  | err : ErrKind → Outcome α
deriving DecidableEq, Repr

/-- The purposes of Services.Mail.Purpose used by the two captcha routes. -/
inductive Purpose where
  | register
  | recoverPassword
deriving DecidableEq, Repr

/-- GET /user/captcha/register: validate the email, send a code, bind the
fresh request identifier to the code in the cache.  The validator, the mailer
and the random request identifier are parameters. -/
def user_req_register_captcha (validate : String → Option String)
    (sendCaptcha : String → Purpose → String → String)
    (request_id email ip : String) (cache : Cache) :
    Outcome String × Cache :=
  match validate email with
  | none => (.err .invalidOperation, cache)
  | some normalized_email =>
    let captcha := sendCaptcha normalized_email .register ip
    (.ok request_id, cacheSet cache request_id captcha)

/-- GET /user/captcha/recover: identical to the register route except for the
purpose passed to the mailer; the cache entry binds the request identifier to
the code only. -/
def user_req_recover_captcha (validate : String → Option String)
    (sendCaptcha : String → Purpose → String → String)
    (request_id email ip : String) (cache : Cache) :
    Outcome String × Cache :=
  match validate email with
  | none => (.err .invalidOperation, cache)
  | some normalized_email =>
    let captcha := sendCaptcha normalized_email .recoverPassword ip
    (.ok request_id, cacheSet cache request_id captcha)

/-- POST /user/register.  The duplicate check in the source is
filter(UserDb.email == normalized_email or UserDb.username == username):
the Python or evaluates the truth value of the first SQLAlchemy comparison,
which is False (it compares hashes of the column and the string), so the
expression reduces to the second comparison and the query filters on
username alone.  commitOk models whether the final commit succeeds; the
cache deletion precedes it in the source. -/
def user_reg (validate : String → Option String)
    (parseGender : String → Option Nat) (hashpw : String → String)
    (email username password gender captcha request_id : String)
    (db : Db) (cache : Cache) (commitOk : Bool) :
    Outcome Unit × Db × Cache :=
  match validate email with
  | none => (.err .invalidOperation, db, cache)
  | some normalized_email =>
    let is_init_user := db.users.isEmpty
    match parseGender gender with
    | none => (.err .invalidOperation, db, cache)
    | some gender_data =>
      if (db.users.find? (fun u => u.username == username)).isSome then
        (.err .resourceConflict, db, cache)
      else
        match cacheGet cache request_id with
        | none => (.err .captchaFailed, db, cache)
        | some cached_captcha =>
          if cached_captcha != captcha then (.err .captchaFailed, db, cache)
          else
            let cache' := cacheDelete cache request_id
            let newUser : UserRec :=
              { uid := request_id, email := normalized_email,
                username := username, password := hashpw password,
                permission := if is_init_user then .admin else .user,
                birthday := none, gender := gender_data }
            if commitOk then
              (.ok (), { db with users := db.users ++ [newUser] }, cache')
            else (.err .commitFailed, db, cache')

/-- The token payload produced by Services.Security.user.create_access_token
(not under src/; modelled from the spec: sub, id and a fixed expiry window). -/
structure TokenPayload where
  sub : String
  id : String
  expireMinutes : Nat
deriving DecidableEq, Repr

def create_access_token (sub id : String) (expireMinutes : Nat) : TokenPayload :=
  { sub := sub, id := id, expireMinutes := expireMinutes }

/-- POST /user/login: look the user up by username; one undifferentiated
AUTH_FAILED for both an absent user and a failed bcrypt check. -/
def user_login (checkpw : String → String → Bool) (expireMinutes : Nat)
    (username password : String) (db : Db) : Outcome TokenPayload :=
  match db.users.find? (fun u => u.username == username) with
  | none => .err .authFailed
  | some u =>
    if checkpw password u.password then
      .ok (create_access_token u.username u.uid expireMinutes)
    else .err .authFailed

/-- Replace the first element satisfying p by its image under f. -/
def updateFirst (p : α → Bool) (f : α → α) : List α → List α
  | [] => []
  | x :: xs => if p x then f x :: xs else x :: updateFirst p f xs

/-- Remove the first element satisfying p. -/
def removeFirst (p : α → Bool) : List α → List α
  | [] => []
  | x :: xs => if p x then xs else x :: removeFirst p xs

/-- POST /user/recover: the lookup filters on the raw submitted email string
(no validation, no normalization).  The cache deletion precedes the commit. -/
def user_recover (hashpw : String → String)
    (email password captcha request_id : String)
    (db : Db) (cache : Cache) (commitOk : Bool) :
    Outcome String × Db × Cache :=
  match db.users.find? (fun u => u.email == email) with
  | none => (.err .notFound, db, cache)
  | some record =>
    match cacheGet cache request_id with
    | none => (.err .captchaFailed, db, cache)
    | some cached_captcha =>
      if cached_captcha != captcha then (.err .captchaFailed, db, cache)
      else
        let cache' := cacheDelete cache request_id
        let users' := updateFirst (fun u => u.email == email)
          (fun u => { u with password := hashpw password }) db.users
        let db' := { db with users := users' }
        if commitOk then (.ok record.username, db', cache')
        else (.err .commitFailed, db, cache')

/-- The PUT /user/profile body. -/
structure UpdateUser where
  birthday : Option String
  gender : Option Nat
  permission : Option Permission
  password : Option String
deriving DecidableEq, Repr

def applyUpdateFields (hashpw : String → String) (body : UpdateUser)
    (r : UserRec) : UserRec :=
  let r1 := match body.birthday with
    | some b => { r with birthday := some b }
    | none => r
  let r2 := match body.gender with
    | some g => { r1 with gender := g }
    | none => r1
  let r3 := match body.permission with
    | some p => { r2 with permission := p }
    | none => r2
  match body.password with
  | some pw => { r3 with password := hashpw pw }
  | none => r3

/-- The second raw assert of user_update fires when the patch carries a
permission different from the stored one and the caller is not ADMIN. -/
def permAssertFails (body : UpdateUser) (record : UserRec)
    (caller : UserRec) : Bool :=
  match body.permission with
  | some p => record.permission != p && !(verify_user caller.permission .admin)
  | none => false

/-- PUT /user/profile/uid.  Both permission gates are raw Python asserts: a
failed check raises AssertionError (an unhandled exception), not an
AuthorizationFailed response, and nothing is committed. -/
def user_update (hashpw : String → String) (uid : String) (body : UpdateUser)
    (caller : UserRec) (db : Db) : Outcome Db :=
  if uid != caller.uid && !(verify_user caller.permission .admin) then
    .err .assertionError
  else
    match db.users.find? (fun u => u.uid == uid) with
    | none => .err .notFound
    | some record =>
      if permAssertFails body record caller then .err .assertionError
      else
        let users' := updateFirst (fun u => u.uid == uid)
          (applyUpdateFields hashpw body) db.users
        .ok { db with users := users' }

/-- The POST / PUT /user/address body (Models.user.AddressRequest is not
under src/; its fields follow the columns the router reads and writes). -/
structure AddressRequest where
  is_default : Bool
  address : String
  phone : String
  name : String
deriving DecidableEq, Repr

def AddressRequest.to_address (b : AddressRequest) (uid aid : String) :
    AddressRec :=
  { aid := aid, uid := uid, is_default := b.is_default,
    address := b.address, phone := b.phone, name := b.name }

/-- The bulk update clearing is_default on every address of a uid. -/
def clearDefaults (uid : String) (l : List AddressRec) : List AddressRec :=
  l.map (fun a => if a.uid == uid then { a with is_default := false } else a)

/-- POST /user/address: clear the defaults when the new address is marked
default, then insert; the fresh aid is a parameter. -/
def add_address (newAid : String) (body : AddressRequest) (caller : UserRec)
    (db : Db) : Db :=
  let addrs := if body.is_default then clearDefaults caller.uid db.addresses
    else db.addresses
  let addrs' := addrs ++ [body.to_address caller.uid newAid]
  { db with addresses := addrs' }

def applyAddressPatch (body : AddressRequest) (a : AddressRec) : AddressRec :=
  { a with
    is_default := body.is_default
    address := body.address
    phone := body.phone
    name := body.name }

/-- PUT /user/address/aid.  In the source the filter is
AddressDb.uid == user.uid and AddressDb.aid == aid.hex: the Python and
evaluates the truth value of the first SQLAlchemy comparison (False), so the
expression is the uid comparison alone.  The walrus binds the Query object
itself (no .first()), which is never None, so the NotFound branch is dead
code and Query.update patches every row the uid filter matches with the body
fields.  The aid path parameter is never consulted. -/
def update_address (aid : String) (body : AddressRequest) (caller : UserRec)
    (db : Db) : Outcome Unit × Db :=
  let _ := aid
  let db1 := if body.is_default then
      { db with addresses := clearDefaults caller.uid db.addresses }
    else db
  let patched := db1.addresses.map
    (fun a => if a.uid == caller.uid then applyAddressPatch body a else a)
  (.ok (), { db1 with addresses := patched })

/-- DELETE /user/address/aid.  The same Python and reduces the filter to the
uid comparison alone, so .first() returns the caller's first address whatever
aid was supplied, and that address is deleted. -/
def delete_address (aid : String) (caller : UserRec) (db : Db) :
    Outcome Unit × Db :=
  let _ := aid
  match db.addresses.find? (fun a => a.uid == caller.uid) with
  | none => (.err .notFound, db)
  | some _ =>
    let addrs' := removeFirst (fun a => a.uid == caller.uid) db.addresses
    (.ok (), { db with addresses := addrs' })

/-- Number of default addresses a uid owns: the single-default invariant of
the spec is defaultCount uid db at most 1. -/
def defaultCount (uid : String) (db : Db) : Nat :=
  (db.addresses.filter (fun a => a.uid == uid && a.is_default)).length

/-- The User row a successful registration inserts. -/
def regUser (rid ne username hashed : String) (isInit : Bool) (g : Nat) :
    UserRec :=
  { uid := rid, email := ne, username := username, password := hashed,
    permission := if isInit then .admin else .user,
    birthday := none, gender := g }

/-! Concrete fixtures used to evaluate the operations at specific inputs. -/

def validate0 : String → Option String := fun s => some s

/-- A validator that normalizes the mixed-case address A@b.c to a@b.c and
accepts everything else unchanged. -/
def validateNorm : String → Option String :=
  fun s => if s == "A@b.c" then some "a@b.c" else some s

def parseGender0 : String → Option Nat :=
  fun s => if s == "0" then some 0 else none

def hashpw0 : String → String := fun p => String.append "H:" p

def cpw0 : String → String → Bool := fun p h => h == String.append "H:" p

def sendCaptcha0 : String → Purpose → String → String := fun _ _ _ => "1234"

def u0 : UserRec :=
  { uid := "u1", email := "a@b.c", username := "alice", password := "H:pw",
    permission := .admin, birthday := none, gender := 0 }

def userB : UserRec :=
  { uid := "u2", email := "b@b.c", username := "bob", password := "H:pw",
    permission := .user, birthday := none, gender := 0 }

def emptyDb : Db := { users := [], addresses := [] }

def db0 : Db := { users := [u0], addresses := [] }

def emptyPatch : UpdateUser :=
  { birthday := none, gender := none, permission := none, password := none }

def req0 : AddressRequest :=
  { is_default := false, address := "addr1", phone := "p", name := "n" }

def req1 : AddressRequest :=
  { is_default := true, address := "addr2", phone := "p", name := "n" }

def db_twoAddr : Db := add_address "a2" req0 u0 (add_address "a1" req0 u0 db0)

def addrA1 : AddressRec :=
  { aid := "a1", uid := "u1", is_default := true, address := "addr1",
    phone := "p", name := "n" }

def db_oneAddr : Db := { users := [u0], addresses := [addrA1] }

/-! Helper lemmas about the cache and the list store. -/

theorem cacheGet_cacheSet (c : Cache) (k v : String) :
    cacheGet (cacheSet c k v) k = some v := by
  simp [cacheGet, cacheSet]

theorem cacheGet_cacheDelete (c : Cache) (k : String) :
    cacheGet (cacheDelete c k) k = none := by
  have h : (cacheDelete c k).find? (fun p => p.1 == k) = none := by
    rw [List.find?_eq_none]
    intro p hp
    have := (List.mem_filter.mp hp).2
    simpa using this
  simp [cacheGet, h]

theorem updateFirst_eq_set (p : α → Bool) (f : α → α) :
    ∀ (l : List α) (r : α), l.find? p = some r →
      updateFirst p f l = l.set (l.findIdx p) (f r) := by
  intro l
  induction l with
  | nil => intro r h; simp [List.find?] at h
  | cons x xs ih =>
    intro r h
    by_cases hx : p x
    · rw [List.find?_cons_of_pos _ hx] at h
      cases h
      simp [updateFirst, hx, List.findIdx_cons]
    · rw [List.find?_cons_of_neg _ hx] at h
      have hb : p x = false := by simpa using hx
      simp [updateFirst, hb, List.findIdx_cons, ih r h]

/-- On the success path, registration appends exactly one User row built from
the normalized email, the hashed password and the bootstrap permission, and
deletes the challenge key. -/
theorem user_reg_success_state (validate : String → Option String)
    (parseGender : String → Option Nat) (hashpw : String → String)
    (email username password gender captcha rid ne : String) (g : Nat)
    (db : Db) (cache : Cache)
    (hval : validate email = some ne) (hg : parseGender gender = some g)
    (hdup : db.users.find? (fun u => u.username == username) = none)
    (hcap : cacheGet cache rid = some captcha) :
    user_reg validate parseGender hashpw email username password gender
        captcha rid db cache true
      = (.ok (),
         { users := db.users
             ++ [regUser rid ne username (hashpw password) db.users.isEmpty g],
           addresses := db.addresses },
         cacheDelete cache rid) := by
  unfold user_reg
  rw [hval, hg, hdup, hcap]
  simp [regUser]

/-- Claim C1 (code_bug evidence): updateProfile by a non-ADMIN caller on a
target uid different from their own does not fail with AuthorizationFailed;
the raw Python assert raises AssertionError instead, for every patch
content. -/
theorem user_update_nonadmin_cross_uid_assertion (hashpw : String → String)
    (uid : String) (body : UpdateUser) (caller : UserRec) (db : Db)
    (hperm : caller.permission = .user) (hne : uid ≠ caller.uid) :
    user_update hashpw uid body caller db = .err .assertionError := by
  unfold user_update
  have h1 : (uid != caller.uid) = true := by simp [bne_iff_ne, hne]
  have h2 : verify_user caller.permission .admin = false := by rw [hperm]; rfl
  rw [h1, h2]
  rfl

/-- Witness for C1: the non-admin caller u2 targeting uid u1 with an empty
patch ends in AssertionError. -/
theorem user_update_nonadmin_cross_uid_assertion_witness :
    user_update hashpw0 "u1" emptyPatch userB db0 = .err .assertionError :=
  user_update_nonadmin_cross_uid_assertion hashpw0 "u1" emptyPatch userB db0
    rfl (by decide)

/-- Claim C2 (code_bug evidence): with a stored user of email a@b.c and
username alice, registering email a@b.c under the fresh username bob is not
rejected with ResourceConflict: the broken combined filter checks the
username alone, so the request succeeds and a second user with the same
email is inserted. -/
theorem register_duplicate_email_not_rejected :
    (user_reg validate0 parseGender0 hashpw0 "a@b.c" "bob" "pw2" "0" "1234"
        "rid1" db0 [("rid1", "1234")] true).1 = .ok () ∧
      ((user_reg validate0 parseGender0 hashpw0 "a@b.c" "bob" "pw2" "0" "1234"
          "rid1" db0 [("rid1", "1234")] true).2.1.users.filter
        (fun u => u.email == "a@b.c")).length = 2 := by
  exact ⟨rfl, rfl⟩

/-- Claim C3 (code_bug evidence): starting from a reachable state with two
addresses and zero defaults for uid u1 (built by two add operations), one
update operation carrying is_default true leaves both addresses default:
the at-most-one-default invariant is broken, because the update patches
every row of the uid-only filter. -/
theorem address_default_invariant_broken_by_update :
    defaultCount "u1" db_twoAddr = 0 ∧
      defaultCount "u1" (update_address "zz" req1 u0 db_twoAddr).2 = 2 := by
  exact ⟨rfl, rfl⟩

/-- Claim C5 (code_bug evidence): the caller u1 owns only the address with
aid a1; deleting the unrelated aid zzz succeeds with 200 and removes a1
instead of failing NotFound, because the filter reduces to the uid
comparison. -/
theorem delete_address_wrong_aid_deletes :
    (∀ a ∈ db_oneAddr.addresses, a.aid ≠ "zzz") ∧
      delete_address "zzz" u0 db_oneAddr
        = (.ok (), { users := [u0], addresses := [] }) := by
  constructor
  · intro a ha
    simp [db_oneAddr] at ha
    simp [ha, addrA1]
  · rfl

/-- Claim C6: on every successful registration the inserted user's permission
is ADMIN when the store held zero User records at the start of the request
and USER otherwise. -/
theorem user_reg_bootstrap_permission (validate : String → Option String)
    (parseGender : String → Option Nat) (hashpw : String → String)
    (email username password gender captcha rid ne : String) (g : Nat)
    (db : Db) (cache : Cache)
    (hval : validate email = some ne) (hg : parseGender gender = some g)
    (hdup : db.users.find? (fun u => u.username == username) = none)
    (hcap : cacheGet cache rid = some captcha) :
    (user_reg validate parseGender hashpw email username password gender
        captcha rid db cache true).2.1.users
      = db.users
          ++ [regUser rid ne username (hashpw password) db.users.isEmpty g]
      ∧ (regUser rid ne username (hashpw password) db.users.isEmpty g).permission
          = (if db.users.isEmpty then .admin else .user) := by
  constructor
  · rw [user_reg_success_state validate parseGender hashpw email username
      password gender captcha rid ne g db cache hval hg hdup hcap]
  · rfl

/-- Witness for C6: the first-ever registration (empty store) inserts the
bootstrap ADMIN. -/
theorem user_reg_bootstrap_permission_witness :
    (user_reg validate0 parseGender0 hashpw0 "a@b.c" "alice" "pw" "0" "1234"
        "rid1" emptyDb [("rid1", "1234")] true).2.1.users
      = emptyDb.users
          ++ [regUser "rid1" "a@b.c" "alice" (hashpw0 "pw")
                emptyDb.users.isEmpty 0]
      ∧ (regUser "rid1" "a@b.c" "alice" (hashpw0 "pw")
            emptyDb.users.isEmpty 0).permission
          = (if emptyDb.users.isEmpty then .admin else .user) :=
  user_reg_bootstrap_permission validate0 parseGender0 hashpw0 "a@b.c" "alice"
    "pw" "0" "1234" "rid1" "a@b.c" 0 emptyDb [("rid1", "1234")] rfl rfl rfl rfl

/-- Claim C7: login fails exactly when the username is absent or password
verification fails, with the one undifferentiated AuthFailed kind in both
cases; otherwise it returns the token payload embedding sub = username and
id = uid with the fixed expiry window. -/
theorem user_login_spec (checkpw : String → String → Bool) (em : Nat)
    (username password : String) (db : Db) :
    (db.users.find? (fun u => u.username == username) = none →
       user_login checkpw em username password db = .err .authFailed)
    ∧ (∀ u, db.users.find? (fun v => v.username == username) = some u →
        checkpw password u.password = false →
        user_login checkpw em username password db = .err .authFailed)
    ∧ (∀ u, db.users.find? (fun v => v.username == username) = some u →
        checkpw password u.password = true →
        user_login checkpw em username password db
          = .ok (create_access_token u.username u.uid em))
    ∧ (∀ e, user_login checkpw em username password db = .err e →
        e = .authFailed) := by
  refine ⟨?_, ?_, ?_, ?_⟩
  · intro h
    simp [user_login, h]
  · intro u hf hc
    simp [user_login, hf, hc]
  · intro u hf hc
    simp [user_login, hf, hc]
  · intro e he
    unfold user_login at he
    cases hf : db.users.find? (fun v => v.username == username) with
    | none =>
      rw [hf] at he
      simpa using he.symm
    | some u =>
      rw [hf] at he
      by_cases hc : checkpw password u.password
      · simp [hc] at he
      · simp [hc] at he
        exact he.symm

/-- Witness for C7: an absent username fails, a wrong password for a present
username fails with the same kind, and the correct pair yields the token for
alice with uid u1. -/
theorem user_login_spec_witness :
    user_login cpw0 30 "bob" "pw" db0 = .err .authFailed
    ∧ user_login cpw0 30 "alice" "wrong" db0 = .err .authFailed
    ∧ user_login cpw0 30 "alice" "pw" db0
        = .ok (create_access_token "alice" "u1" 30) :=
  ⟨(user_login_spec cpw0 30 "bob" "pw" db0).1 rfl,
   (user_login_spec cpw0 30 "alice" "wrong" db0).2.1 u0 rfl rfl,
   (user_login_spec cpw0 30 "alice" "pw" db0).2.2.1 u0 rfl rfl⟩

/-- Claim C8: recover with an email matching no user fails NotFound with the
store and the cache untouched; on success only the matched user's password
field changes (one position of the users list is replaced by the same record
with a new password hash; the addresses are untouched) and the matched
user's username is returned. -/
theorem user_recover_frame (hashpw : String → String)
    (email password captcha rid : String) (db : Db) (cache : Cache) :
    (db.users.find? (fun u => u.email == email) = none →
       user_recover hashpw email password captcha rid db cache true
         = (.err .notFound, db, cache))
    ∧ (∀ r, db.users.find? (fun u => u.email == email) = some r →
        cacheGet cache rid = some captcha →
        user_recover hashpw email password captcha rid db cache true
          = (.ok r.username,
             { users := db.users.set
                 (db.users.findIdx (fun u => u.email == email))
                 { r with password := hashpw password },
               addresses := db.addresses },
             cacheDelete cache rid)) := by
  constructor
  · intro h
    simp [user_recover, h]
  · intro r hf hc
    have hset := updateFirst_eq_set (fun u => u.email == email)
      (fun u => { u with password := hashpw password }) db.users r hf
    simp [user_recover, hf, hc, hset]

/-- Witness for C8: recovery for an unknown email fails NotFound and changes
nothing; recovery for alice's email rewrites only her password hash and
returns her username. -/
theorem user_recover_frame_witness :
    user_recover hashpw0 "x@y.z" "new" "1234" "rid1" db0 [("rid1", "1234")]
        true
      = (.err .notFound, db0, [("rid1", "1234")])
    ∧ user_recover hashpw0 "a@b.c" "new" "1234" "rid1" db0 [("rid1", "1234")]
        true
      = (.ok u0.username,
         { users := db0.users.set
             (db0.users.findIdx (fun u => u.email == "a@b.c"))
             { u0 with password := hashpw0 "new" },
           addresses := db0.addresses },
         cacheDelete [("rid1", "1234")] "rid1") :=
  ⟨(user_recover_frame hashpw0 "x@y.z" "new" "1234" "rid1" db0
      [("rid1", "1234")]).1 rfl,
   (user_recover_frame hashpw0 "a@b.c" "new" "1234" "rid1" db0
      [("rid1", "1234")]).2 u0 rfl rfl⟩

/-- Claim C4: in register and recover, an absent request identifier or a
mismatched code fails CaptchaFailed with the store and the cache untouched;
on a match the challenge key is deleted whether or not the dependent commit
succeeds, and a deleted key can no longer be read, so a second consumption
fails. -/
theorem challenge_single_use (validate : String → Option String)
    (parseGender : String → Option Nat) (hashpw : String → String)
    (email username password gender captcha rid ne : String) (g : Nat)
    (r : UserRec) (db : Db) (cache : Cache) (commitOk : Bool)
    (hval : validate email = some ne) (hg : parseGender gender = some g)
    (hdup : db.users.find? (fun u => u.username == username) = none)
    (hrec : db.users.find? (fun u => u.email == email) = some r) :
    (cacheGet cache rid = none →
       user_reg validate parseGender hashpw email username password gender
           captcha rid db cache commitOk
         = (.err .captchaFailed, db, cache)
       ∧ user_recover hashpw email password captcha rid db cache commitOk
         = (.err .captchaFailed, db, cache))
    ∧ (∀ c, cacheGet cache rid = some c → c ≠ captcha →
        user_reg validate parseGender hashpw email username password gender
            captcha rid db cache commitOk
          = (.err .captchaFailed, db, cache)
        ∧ user_recover hashpw email password captcha rid db cache commitOk
          = (.err .captchaFailed, db, cache))
    ∧ (cacheGet cache rid = some captcha →
        (user_reg validate parseGender hashpw email username password gender
            captcha rid db cache commitOk).2.2 = cacheDelete cache rid
        ∧ (user_recover hashpw email password captcha rid db cache
            commitOk).2.2 = cacheDelete cache rid)
    ∧ cacheGet (cacheDelete cache rid) rid = none := by
  refine ⟨?_, ?_, ?_, cacheGet_cacheDelete cache rid⟩
  · intro h
    constructor
    · simp [user_reg, hval, hg, hdup, h]
    · simp [user_recover, hrec, h]
  · intro c hc hne
    have hb : (c != captcha) = true := by simp [bne_iff_ne, hne]
    constructor
    · simp [user_reg, hval, hg, hdup, hc, hb]
    · simp [user_recover, hrec, hc, hb]
  · intro hcap
    constructor
    · cases commitOk <;> simp [user_reg, hval, hg, hdup, hcap]
    · cases commitOk <;> simp [user_recover, hrec, hcap]

/-- Witness for C4 at concrete inputs (with a failing commit for the
consumption conjunct): empty cache and wrong code each fail CaptchaFailed
without any mutation; a matching code removes the key even though the commit
fails; the removed key reads back as none. -/
theorem challenge_single_use_witness :
    (user_reg validate0 parseGender0 hashpw0 "a@b.c" "bob" "pw" "0" "1234"
         "rid1" db0 [] false
       = (.err .captchaFailed, db0, [])
     ∧ user_recover hashpw0 "a@b.c" "pw" "1234" "rid1" db0 [] false
       = (.err .captchaFailed, db0, []))
    ∧ (user_reg validate0 parseGender0 hashpw0 "a@b.c" "bob" "pw" "0" "1234"
         "rid1" db0 [("rid1", "9999")] false
       = (.err .captchaFailed, db0, [("rid1", "9999")])
     ∧ user_recover hashpw0 "a@b.c" "pw" "1234" "rid1" db0
         [("rid1", "9999")] false
       = (.err .captchaFailed, db0, [("rid1", "9999")]))
    ∧ ((user_reg validate0 parseGender0 hashpw0 "a@b.c" "bob" "pw" "0" "1234"
         "rid1" db0 [("rid1", "1234")] false).2.2
         = cacheDelete [("rid1", "1234")] "rid1"
     ∧ (user_recover hashpw0 "a@b.c" "pw" "1234" "rid1" db0
         [("rid1", "1234")] false).2.2
         = cacheDelete [("rid1", "1234")] "rid1")
    ∧ cacheGet (cacheDelete [("rid1", "1234")] "rid1") "rid1" = none :=
  ⟨(challenge_single_use validate0 parseGender0 hashpw0 "a@b.c" "bob" "pw" "0"
      "1234" "rid1" "a@b.c" 0 u0 db0 [] false rfl rfl rfl rfl).1 rfl,
   (challenge_single_use validate0 parseGender0 hashpw0 "a@b.c" "bob" "pw" "0"
      "1234" "rid1" "a@b.c" 0 u0 db0 [("rid1", "9999")] false rfl rfl rfl
      rfl).2.1 "9999" rfl (by decide),
   (challenge_single_use validate0 parseGender0 hashpw0 "a@b.c" "bob" "pw" "0"
      "1234" "rid1" "a@b.c" 0 u0 db0 [("rid1", "1234")] false rfl rfl rfl
      rfl).2.2.1 rfl,
   (challenge_single_use validate0 parseGender0 hashpw0 "a@b.c" "bob" "pw" "0"
      "1234" "rid1" "a@b.c" 0 u0 db0 [("rid1", "1234")] false rfl rfl rfl
      rfl).2.2.2⟩

/-- Claim C9: the cache binds a request identifier to its code only, with no
record of the issuing purpose, so a challenge issued by the recovery endpoint
is accepted by register and a challenge issued by the register endpoint is
accepted by recover, whenever the consuming operation's other preconditions
hold. -/
theorem captcha_purpose_agnostic (validate : String → Option String)
    (parseGender : String → Option Nat) (hashpw : String → String)
    (sendCaptcha : String → Purpose → String → String)
    (capEmail regEmail username password gender rid ip ne ne2 : String)
    (g : Nat) (r : UserRec) (db : Db) (cache : Cache)
    (hval : validate capEmail = some ne)
    (hval2 : validate regEmail = some ne2)
    (hg : parseGender gender = some g)
    (hdup : db.users.find? (fun u => u.username == username) = none)
    (hrec : db.users.find? (fun u => u.email == capEmail) = some r) :
    (user_reg validate parseGender hashpw regEmail username password gender
        (sendCaptcha ne .recoverPassword ip) rid db
        (user_req_recover_captcha validate sendCaptcha rid capEmail ip
          cache).2 true).1
      = .ok ()
    ∧ (user_recover hashpw capEmail password (sendCaptcha ne .register ip)
        rid db
        (user_req_register_captcha validate sendCaptcha rid capEmail ip
          cache).2 true).1
      = .ok r.username := by
  constructor
  · have hc2 : (user_req_recover_captcha validate sendCaptcha rid capEmail ip
        cache).2 = cacheSet cache rid (sendCaptcha ne .recoverPassword ip) := by
      simp [user_req_recover_captcha, hval]
    rw [hc2]
    have hgot := cacheGet_cacheSet cache rid (sendCaptcha ne .recoverPassword ip)
    simp [user_reg, hval2, hg, hdup, hgot]
  · have hc2 : (user_req_register_captcha validate sendCaptcha rid capEmail ip
        cache).2 = cacheSet cache rid (sendCaptcha ne .register ip) := by
      simp [user_req_register_captcha, hval]
    rw [hc2]
    have hgot := cacheGet_cacheSet cache rid (sendCaptcha ne .register ip)
    simp [user_recover, hrec, hgot]

/-- Witness for C9: with the identity validator and a fixed mailer the
recovery-issued challenge lets bob register and the register-issued challenge
lets alice recover. -/
theorem captcha_purpose_agnostic_witness :
    (user_reg validate0 parseGender0 hashpw0 "n@n.n" "bob" "pw" "0"
        (sendCaptcha0 "a@b.c" .recoverPassword "ip") "rid1" db0
        (user_req_recover_captcha validate0 sendCaptcha0 "rid1" "a@b.c" "ip"
          []).2 true).1
      = .ok ()
    ∧ (user_recover hashpw0 "a@b.c" "pw" (sendCaptcha0 "a@b.c" .register "ip")
        "rid1" db0
        (user_req_register_captcha validate0 sendCaptcha0 "rid1" "a@b.c" "ip"
          []).2 true).1
      = .ok u0.username :=
  captcha_purpose_agnostic validate0 parseGender0 hashpw0 sendCaptcha0
    "a@b.c" "n@n.n" "bob" "pw" "0" "rid1" "ip" "a@b.c" "n@n.n" 0 u0 db0 []
    rfl rfl rfl rfl rfl

/-- Claim C10: recover performs no email validation, so it can never end in
InvalidOperation; and because register stores the normalized email while
recover filters on the raw submitted string, a user whose submitted email
differs from its normalized form cannot be found again under the original
string: recover answers NotFound although the user exists. -/
theorem recover_raw_email_lookup (hashpw : String → String)
    (email password captcha rid : String) (db : Db) (cache : Cache)
    (commitOk : Bool) :
    ((user_recover hashpw email password captcha rid db cache commitOk).1
        ≠ .err .invalidOperation)
    ∧ (∀ (validate : String → Option String)
        (parseGender : String → Option Nat)
        (username regPassword gender captcha2 rid2 ne : String) (g : Nat)
        (cache2 : Cache),
        validate email = some ne → ne ≠ email →
        parseGender gender = some g →
        db.users.find? (fun u => u.username == username) = none →
        cacheGet cache rid = some captcha →
        (∀ x ∈ db.users, (x.email == email) = false) →
        (user_recover hashpw email regPassword captcha2 rid2
            (user_reg validate parseGender hashpw email username password
              gender captcha rid db cache true).2.1
            cache2 commitOk).1
          = .err .notFound) := by
  constructor
  · unfold user_recover
    split
    · simp
    · split
      · simp
      · split
        · simp
        · split <;> simp
  · intro validate parseGender username regPassword gender captcha2 rid2 ne g
      cache2 hval hne hg hdup hcap hraw
    rw [user_reg_success_state validate parseGender hashpw email username
      password gender captcha rid ne g db cache hval hg hdup hcap]
    have hfind : (db.users
        ++ [regUser rid ne username (hashpw password) db.users.isEmpty
          g]).find? (fun u => u.email == email) = none := by
      rw [List.find?_eq_none]
      intro x hx
      rcases List.mem_append.mp hx with hx1 | hx2
      · simp [hraw x hx1]
      · have hx3 : x = regUser rid ne username (hashpw password)
            db.users.isEmpty g := by simpa using hx2
        subst hx3
        simp [regUser, hne]
    simp [user_recover, hfind]

/-- Witness for C10: alice's store never yields InvalidOperation on recover;
and after bob registers the address A@b.c under a normalizing validator
(stored as a@b.c), recovery with the original string A@b.c is NotFound. -/
theorem recover_raw_email_lookup_witness :
    ((user_recover hashpw0 "A@b.c" "pw" "1234" "rid1" db0 [("rid1", "1234")]
        true).1 ≠ .err .invalidOperation)
    ∧ (user_recover hashpw0 "A@b.c" "new" "9" "r9"
        (user_reg validateNorm parseGender0 hashpw0 "A@b.c" "bob" "pw" "0"
          "1234" "rid1" db0 [("rid1", "1234")] true).2.1
        [] true).1
      = .err .notFound :=
  ⟨(recover_raw_email_lookup hashpw0 "A@b.c" "pw" "1234" "rid1" db0
      [("rid1", "1234")] true).1,
   (recover_raw_email_lookup hashpw0 "A@b.c" "pw" "1234" "rid1" db0
      [("rid1", "1234")] true).2 validateNorm parseGender0 "bob" "new" "0"
      "9" "r9" "a@b.c" 0 [] (by decide) (by decide) rfl rfl rfl (by decide)⟩

end ShopBE
